import Mathlib

/-
  Shallow embedding of the petty-cash ledger of this repository.

  Source of truth:
  - src/contexts/PettyCashContext.tsx : the reducer over the ledger state
    (actions INITIALIZE, DISBURSE, REPLENISH, LOAD_FROM_STORAGE, and a
    default case returning the state unchanged), the initial state, and the
    load/persist effects around browser storage.
  - src/app/reconcile/page.tsx : the reconciliation computation
    (difference, isDifferenceSignificant, the classification label, and
    handleReconcile which records a ReconciliationRecord).
  - src/app/settings/page.tsx : handleResetFund, which removes the two
    storage keys and dispatches an action of kind RESET_FUND.

  Embedding conventions:
  - JavaScript numbers (double-precision floats in the source) are embedded
    as exact rationals; currency values in the repository are small decimals
    for which the comparisons of interest agree with exact arithmetic.
  - Nondeterministic inputs of the source (generateTransactionId, Date.now)
    are passed in explicitly through an environment record.
  - Fallible steps (JSON deserialization, which can throw in the source)
    are embedded with Option and Except.
-/

set_option autoImplicit false

namespace PettyCash

/-- The transaction kind union of the source: the string union
"disbursement" or "replenishment" or "initialization" on the Transaction
interface in src/contexts/PettyCashContext.tsx. -/
inductive TxType where
  | initialization
  | disbursement
  | replenishment
deriving DecidableEq

/-- The Transaction interface of src/contexts/PettyCashContext.tsx.
Fields purpose and recipient are optional there; timestamp is a JavaScript
number (embedded as a rational like every number of the source). -/
structure Transaction where
  id : String
  type : TxType
  amount : ℚ
  date : String
  purpose : Option String
  recipient : Option String
  timestamp : ℚ
deriving DecidableEq

/-- The PettyCashState interface of src/contexts/PettyCashContext.tsx. -/
structure PettyCashState where
  balance : ℚ
  transactions : List Transaction
  isInitialized : Bool
deriving DecidableEq

/-- The initialState constant of src/contexts/PettyCashContext.tsx. -/
def initialState : PettyCashState :=
  { balance := 0, transactions := [], isInitialized := false }

/-- The PettyCashAction union of src/contexts/PettyCashContext.tsx,
extended with the action kind RESET_FUND that src/app/settings/page.tsx
actually dispatches at runtime; the reducer has no case for that kind, so
it reaches the default branch of the switch. -/
inductive PettyCashAction where
  | INITIALIZE (amount : ℚ) (date : String)
  | DISBURSE (amount : ℚ) (date : String) (purpose : String) (recipient : String)
  | REPLENISH (amount : ℚ) (date : String)
  | LOAD_FROM_STORAGE (payload : PettyCashState)
  | RESET_FUND
deriving DecidableEq

/-- Environment for the side-effecting inputs of one reducer step:
the id produced by generateTransactionId and the value of Date.now. -/
structure TxEnv where
  newId : String
  now : ℚ

/-- The pettyCashReducer function of src/contexts/PettyCashContext.tsx,
case by case. The RESET_FUND kind falls through to the default case of the
switch, which returns the state unchanged. -/
def pettyCashReducer (env : TxEnv) (state : PettyCashState)
    (action : PettyCashAction) : PettyCashState :=
  match action with
  | .INITIALIZE amount date =>
      let initTransaction : Transaction :=
        { id := env.newId, type := .initialization, amount := amount,
          date := date, purpose := none, recipient := none, timestamp := env.now }
      { balance := amount, transactions := [initTransaction], isInitialized := true }
  | .DISBURSE amount date purpose recipient =>
      let disbursement : Transaction :=
        { id := env.newId, type := .disbursement, amount := amount,
          date := date, purpose := some purpose, recipient := some recipient,
          timestamp := env.now }
      { state with
          balance := state.balance - amount,
          transactions := state.transactions ++ [disbursement] }
  | .REPLENISH amount date =>
      let replenishment : Transaction :=
        { id := env.newId, type := .replenishment, amount := amount,
          date := date, purpose := none, recipient := none, timestamp := env.now }
      { state with
          balance := state.balance + amount,
          transactions := state.transactions ++ [replenishment] }
  | .LOAD_FROM_STORAGE payload => payload
  | .RESET_FUND => state

/-- The signed-amount rule of the spec, read off the reducer: folding one
transaction into a running balance. An initialization transaction sets the
accumulator to its amount, a disbursement subtracts, a replenishment adds. -/
def applyTx (acc : ℚ) (t : Transaction) : ℚ :=
  match t.type with
  | .initialization => t.amount
  | .disbursement => acc - t.amount
  | .replenishment => acc + t.amount

/-- Fold of a transaction list in order under the signed-amount rule,
starting from the empty-state balance 0. -/
def foldBalance (txs : List Transaction) : ℚ :=
  txs.foldl applyTx 0

/-- States reachable from the empty initial state by the operations the
pages dispatch: initialize, disburse, replenish, and loading a snapshot
that is itself reachable. -/
inductive Reachable : PettyCashState → Prop where
  | empty : Reachable initialState
  | initializeStep (env : TxEnv) (amount : ℚ) (date : String)
      (s : PettyCashState) :
      Reachable s → Reachable (pettyCashReducer env s (.INITIALIZE amount date))
  | disburseStep (env : TxEnv) (amount : ℚ) (date purpose recipient : String)
      (s : PettyCashState) :
      Reachable s →
      Reachable (pettyCashReducer env s (.DISBURSE amount date purpose recipient))
  | replenishStep (env : TxEnv) (amount : ℚ) (date : String)
      (s : PettyCashState) :
      Reachable s → Reachable (pettyCashReducer env s (.REPLENISH amount date))
  | loadStep (env : TxEnv) (s payload : PettyCashState) :
      Reachable s → Reachable payload →
      Reachable (pettyCashReducer env s (.LOAD_FROM_STORAGE payload))

/-- Concrete environment for sample states (Scenario A of the spec). -/
def envA : TxEnv := { newId := "TXN-A", now := 1 }

/-- Concrete environment for sample states (Scenario B of the spec). -/
def envB : TxEnv := { newId := "TXN-B", now := 2 }

/-- State after initialize(500, 2024-01-01) from the empty state. -/
def stateAfterInit : PettyCashState :=
  pettyCashReducer envA initialState (.INITIALIZE 500 "2024-01-01")

/-- State after a further disburse(75.5, 2024-01-02, Office Supplies,
Jane Doe). -/
def stateAfterDisburse : PettyCashState :=
  pettyCashReducer envB stateAfterInit
    (.DISBURSE 75.5 "2024-01-02" "Office Supplies" "Jane Doe")

/-- Classification labels rendered by src/app/reconcile/page.tsx:
Balanced, Overage, Shortage. -/
inductive Classification where
  | Balanced
  | Overage
  | Shortage
deriving DecidableEq

/-- The difference computed at line 43 of src/app/reconcile/page.tsx:
actual cash on hand minus the theoretical (system) balance. -/
def difference (systemBalance physicalBalance : ℚ) : ℚ :=
  physicalBalance - systemBalance

/-- The isDifferenceSignificant boolean at line 44 of
src/app/reconcile/page.tsx: true when the absolute difference is strictly
greater than 0.01. -/
def isDifferenceSignificant (systemBalance physicalBalance : ℚ) : Bool :=
  decide ((0.01 : ℚ) < |difference systemBalance physicalBalance|)

/-- The classification label at line 177 of src/app/reconcile/page.tsx:
when significant, Overage if the difference is positive else Shortage;
otherwise Balanced. -/
def classify (systemBalance physicalBalance : ℚ) : Classification :=
  if isDifferenceSignificant systemBalance physicalBalance then
    if 0 < difference systemBalance physicalBalance then .Overage else .Shortage
  else .Balanced

/-- Classification as the spec words it: Balanced when the absolute
difference is strictly less than 0.01, else Overage or Shortage by sign.
Declared only to be compared with the classify function taken from the
source. -/
def classifyClaimed (systemBalance physicalBalance : ℚ) : Classification :=
  if |difference systemBalance physicalBalance| < (0.01 : ℚ) then .Balanced
  else if 0 < difference systemBalance physicalBalance then .Overage
  else .Shortage

/-- The ReconciliationRecord interface of src/app/reconcile/page.tsx. -/
structure ReconciliationRecord where
  id : String
  date : String
  theoreticalBalance : ℚ
  actualCash : ℚ
  difference : ℚ
  explanation : Option String
  timestamp : ℚ
deriving DecidableEq

/-- Environment for the side-effecting inputs of handleReconcile: the
generated record id, the current date string, and the value of Date.now. -/
structure RecEnv where
  newId : String
  today : String
  now : ℚ

/-- The handleReconcile function of src/app/reconcile/page.tsx. The
actual-cash input is an Option: none embeds the guard path where the text
field is empty or does not parse to a number, in which case the handler
returns early after a toast and changes nothing. On the main path it
builds a ReconciliationRecord, prepends it to the reconciliation history
and keeps the first 10 records; it never dispatches to the ledger store,
so the ledger state is returned unchanged. -/
def handleReconcile (env : RecEnv) (s : PettyCashState)
    (history : List ReconciliationRecord) (actualCash : Option ℚ)
    (explanation : String) : PettyCashState × List ReconciliationRecord :=
  match actualCash with
  | none => (s, history)
  | some actualAmount =>
      let reconciliation : ReconciliationRecord :=
        { id := env.newId, date := env.today,
          theoreticalBalance := s.balance, actualCash := actualAmount,
          difference := actualAmount - s.balance,
          explanation :=
            if explanation.trim = "" then none else some explanation.trim,
          timestamp := env.now }
      (s, (reconciliation :: history).take 10)

/-- The two browser-storage entries the reset flow touches, each present
as a raw stored string or absent. -/
structure Storage where
  pettyCashData : Option String
  reconciliationHistory : Option String
deriving DecidableEq

/-- The handleResetFund function of src/app/settings/page.tsx: when the
typed confirmation is not RESET it returns early and changes nothing;
otherwise it removes the two storage keys and dispatches an action of kind
RESET_FUND to the reducer. -/
def handleResetFund (resetConfirmation : String) (storage : Storage)
    (s : PettyCashState) (env : TxEnv) : Storage × PettyCashState :=
  if resetConfirmation ≠ "RESET" then (storage, s)
  else
    ({ pettyCashData := none, reconciliationHistory := none },
     pettyCashReducer env s .RESET_FUND)

/-- A sample storage snapshot holding both keys, so that clearing is
observable. -/
def sampleStorage : Storage :=
  { pettyCashData := some "snapshot", reconciliationHistory := some "[]" }

/-- The startup load effect of PettyCashProvider in
src/contexts/PettyCashContext.tsx. The store starts at initialState. The
stored argument embeds the storage read followed by JSON.parse: none when
no entry exists, some (Except.error e) when JSON.parse throws (the catch
branch only logs, so no dispatch happens), and some (Except.ok data) when
parsing succeeds, in which case the parsed payload is dispatched as
LOAD_FROM_STORAGE. -/
def mountLoad (env : TxEnv)
    (stored : Option (Except String PettyCashState)) : PettyCashState :=
  match stored with
  | none => initialState
  | some (.error _) => initialState
  | some (.ok parsedData) =>
      pettyCashReducer env initialState (.LOAD_FROM_STORAGE parsedData)

/-- JSON values, the codomain of JSON.stringify and domain of JSON.parse
in the persistence effect of src/contexts/PettyCashContext.tsx. Numbers
are embedded as rationals like every number of the source. -/
inductive Json where
  | num (value : ℚ)
  | str (value : String)
  | bool (value : Bool)
  | arr (items : List Json)
  | obj (fields : List (String × Json))

/-- First field of an object with the given key, if any. -/
def lookupField : List (String × Json) → String → Option Json
  | [], _ => none
  | (k, v) :: rest, key => if k = key then some v else lookupField rest key

/-- String content of a JSON value, if it is a string. -/
def Json.asStr : Json → Option String
  | .str s => some s
  | _ => none

/-- Numeric content of a JSON value, if it is a number. -/
def Json.asNum : Json → Option ℚ
  | .num q => some q
  | _ => none

/-- Boolean content of a JSON value, if it is a boolean. -/
def Json.asBool : Json → Option Bool
  | .bool b => some b
  | _ => none

/-- The type string stored for each transaction kind, as written by
JSON.stringify on the string union of the source. -/
def encodeTxType : TxType → String
  | .initialization => "initialization"
  | .disbursement => "disbursement"
  | .replenishment => "replenishment"

/-- Reading a transaction kind back from its stored string. -/
def decodeTxType : String → Option TxType
  | "initialization" => some .initialization
  | "disbursement" => some .disbursement
  | "replenishment" => some .replenishment
  | _ => none

/-- JSON.stringify on one Transaction: field order follows the object
construction in the reducer; keys whose value is undefined in the source
(purpose and recipient when absent) are omitted, as JSON.stringify does. -/
def encodeTransaction (t : Transaction) : Json :=
  .obj
    ([("id", Json.str t.id), ("type", Json.str (encodeTxType t.type)),
      ("amount", Json.num t.amount), ("date", Json.str t.date)]
     ++ (match t.purpose with
         | some p => [("purpose", Json.str p)]
         | none => [])
     ++ (match t.recipient with
         | some r => [("recipient", Json.str r)]
         | none => [])
     ++ [("timestamp", Json.num t.timestamp)])

/-- Reading one Transaction back out of a parsed JSON value. -/
def decodeTransaction (j : Json) : Option Transaction :=
  match j with
  | .obj fields => do
      let id ← (lookupField fields "id").bind Json.asStr
      let ty ← ((lookupField fields "type").bind Json.asStr).bind decodeTxType
      let amount ← (lookupField fields "amount").bind Json.asNum
      let date ← (lookupField fields "date").bind Json.asStr
      let timestamp ← (lookupField fields "timestamp").bind Json.asNum
      pure
        { id := id, type := ty, amount := amount, date := date,
          purpose := (lookupField fields "purpose").bind Json.asStr,
          recipient := (lookupField fields "recipient").bind Json.asStr,
          timestamp := timestamp }
  | _ => none

/-- Reading a list of transactions back, failing if any element fails. -/
def decodeTransactions : List Json → Option (List Transaction)
  | [] => some []
  | j :: rest => do
      let t ← decodeTransaction j
      let ts ← decodeTransactions rest
      pure (t :: ts)

/-- JSON.stringify on the whole ledger state, as the persist effect of
PettyCashProvider writes it under the pettyCashData key. -/
def encodeState (s : PettyCashState) : Json :=
  .obj
    [("balance", Json.num s.balance),
     ("transactions", Json.arr (s.transactions.map encodeTransaction)),
     ("isInitialized", Json.bool s.isInitialized)]

/-- Reading a ledger state back out of a parsed JSON value. -/
def decodeState (j : Json) : Option PettyCashState :=
  match j with
  | .obj fields => do
      let balance ← (lookupField fields "balance").bind Json.asNum
      let txsJson ← lookupField fields "transactions"
      let txs ←
        match txsJson with
        | .arr items => decodeTransactions items
        | _ => none
      let isInit ← (lookupField fields "isInitialized").bind Json.asBool
      pure { balance := balance, transactions := txs, isInitialized := isInit }
  | _ => none

/-- Representable finite IEEE-754 binary64 values, as exact rationals: an
integer mantissa of magnitude below 2 ^ 53 times an integer power of two
in the binary64 exponent range. Every number a JavaScript computation can
hold is of this form. -/
def isFloat64 (x : ℚ) : Prop :=
  ∃ m e : ℤ, |m| < 2 ^ 53 ∧ -1074 ≤ e ∧ e ≤ 971 ∧ x = (m : ℚ) * 2 ^ e

/-- Exact value of the binary64 double the program stores for the literal
100.02: the mantissa is the nearest integer to 100.02 * 2 ^ 46 (the
counterexample theorem certifies the half-ulp bound). -/
def double100_02 : ℚ := 7038281792649953 / 2 ^ 46

/-- Exact value of the binary64 double the program stores for the literal
100.004: the mantissa is the nearest integer to 100.004 * 2 ^ 46. -/
def double100_004 : ℚ := 7037155892743111 / 2 ^ 46

/-- Exact value of the binary64 double the program stores for the literal
0.02: the mantissa is the nearest integer to 0.02 * 2 ^ 58. -/
def double0_02 : ℚ := 5764607523034235 / 2 ^ 58

/-- Exact value of the binary64 double the program stores for the epsilon
literal 0.01: the mantissa is the nearest integer to 0.01 * 2 ^ 59. -/
def double0_01 : ℚ := 5764607523034235 / 2 ^ 59

/-- Exact result of the binary64 subtraction 100.02 - 100 in the program:
the true difference of the two stored doubles. No rounding happens in the
subtraction, because this value is itself representable (certified in the
counterexample theorem) and IEEE subtraction returns the correctly rounded
true difference. -/
def doubleDifference : ℚ := double100_02 - 100

/-- Decoding inverts encoding on a single transaction. -/
theorem decodeTransaction_encodeTransaction (t : Transaction) :
    decodeTransaction (encodeTransaction t) = some t := by
  obtain ⟨id, ty, amount, date, purpose, recipient, ts⟩ := t
  cases ty <;> cases purpose <;> cases recipient <;> rfl

/-- Decoding inverts encoding on a transaction list. -/
theorem decodeTransactions_map (l : List Transaction) :
    decodeTransactions (l.map encodeTransaction) = some l := by
  induction l with
  | nil => rfl
  | cons t rest ih =>
      simp [decodeTransactions, decodeTransaction_encodeTransaction t, ih]

/-- Decoding inverts encoding on a whole ledger state. -/
theorem decodeState_encodeState (s : PettyCashState) :
    decodeState (encodeState s) = some s := by
  obtain ⟨balance, txs, isInit⟩ := s
  simp [decodeState, encodeState, lookupField, Json.asNum, Json.asBool,
    decodeTransactions_map]

/-- Claim C1 (code bug): the claim says the reset operation returns the
ledger to the empty initial state and clears persisted storage. The code
clears the two storage keys, but the dispatched RESET_FUND action has no
case in the reducer and falls through to the default branch, so the
in-memory state is returned unchanged: after initialize(500), reset leaves
balance 500, one transaction, and isInitialized true, not the empty state
the claim (and the code, through its own completion toast saying all data
has been cleared) requires. -/
theorem resetFund_leaves_state_unchanged :
    (handleResetFund "RESET" sampleStorage stateAfterInit envB).2 = stateAfterInit ∧
    stateAfterInit.balance = 500 ∧
    stateAfterInit.transactions.length = 1 ∧
    stateAfterInit.isInitialized = true ∧
    stateAfterInit ≠ initialState ∧
    (handleResetFund "RESET" sampleStorage stateAfterInit envB).1.pettyCashData = none ∧
    (handleResetFund "RESET" sampleStorage stateAfterInit envB).1.reconciliationHistory = none := by
  refine ⟨rfl, rfl, rfl, rfl, ?_, rfl, rfl⟩
  intro h
  have hbal := congrArg PettyCashState.balance h
  simp only [stateAfterInit, initialState, pettyCashReducer] at hbal
  norm_num at hbal

/-- Claim C3 (counterexample): dispatching INITIALIZE on a state holding
two transactions leaves a transactions list of length one, so the length
does not only grow across every non-reset operation, and the two existing
entries are discarded. -/
theorem initialize_shrinks_transactions_counterexample :
    PettyCashAction.INITIALIZE 300 "2024-03-01" ≠ PettyCashAction.RESET_FUND ∧
    stateAfterDisburse.transactions.length = 2 ∧
    (pettyCashReducer envA stateAfterDisburse
        (.INITIALIZE 300 "2024-03-01")).transactions.length = 1 := by
  refine ⟨?_, rfl, rfl⟩
  intro h
  exact PettyCashAction.noConfusion h

/-- Claim C3 (amended): the transactions list only grows, with no entry
removed or mutated, under disburse and replenish, each of which appends
exactly one new transaction; initialize replaces the whole list with
exactly one new initialization transaction, loadFromStorage replaces it
wholesale with the snapshot list, and the dispatched reset action leaves
it unchanged. -/
theorem transactions_append_only_amended (env : TxEnv) (s payload : PettyCashState)
    (amount : ℚ) (date purpose recipient : String) :
    (pettyCashReducer env s (.DISBURSE amount date purpose recipient)).transactions
        = s.transactions ++
          [{ id := env.newId, type := .disbursement, amount := amount,
             date := date, purpose := some purpose, recipient := some recipient,
             timestamp := env.now }] ∧
    (pettyCashReducer env s (.REPLENISH amount date)).transactions
        = s.transactions ++
          [{ id := env.newId, type := .replenishment, amount := amount,
             date := date, purpose := none, recipient := none,
             timestamp := env.now }] ∧
    (pettyCashReducer env s (.INITIALIZE amount date)).transactions
        = [{ id := env.newId, type := .initialization, amount := amount,
             date := date, purpose := none, recipient := none,
             timestamp := env.now }] ∧
    (pettyCashReducer env s (.LOAD_FROM_STORAGE payload)).transactions
        = payload.transactions ∧
    (pettyCashReducer env s .RESET_FUND).transactions = s.transactions :=
  ⟨rfl, rfl, rfl, rfl, rfl⟩

/-- Claim C6 (confirmed): disburse subtracts the amount from the balance
and appends exactly one disbursement transaction carrying the given
amount, date, purpose and recipient, leaving isInitialized untouched; no
nonnegative-balance check exists, and for every state some positive amount
drives the balance strictly negative. -/
theorem disburse_effect (env : TxEnv) (s : PettyCashState) (amount : ℚ)
    (date purpose recipient : String) :
    (pettyCashReducer env s (.DISBURSE amount date purpose recipient)).balance
        = s.balance - amount ∧
    (pettyCashReducer env s (.DISBURSE amount date purpose recipient)).transactions
        = s.transactions ++
          [{ id := env.newId, type := .disbursement, amount := amount,
             date := date, purpose := some purpose, recipient := some recipient,
             timestamp := env.now }] ∧
    (pettyCashReducer env s (.DISBURSE amount date purpose recipient)).isInitialized
        = s.isInitialized ∧
    ∃ big : ℚ, 0 < big ∧
      (pettyCashReducer env s (.DISBURSE big date purpose recipient)).balance < 0 := by
  refine ⟨rfl, rfl, rfl, |s.balance| + 1, by positivity, ?_⟩
  have hle : s.balance ≤ |s.balance| := le_abs_self _
  show s.balance - (|s.balance| + 1) < 0
  linarith

/-- Claim C8 (confirmed): INITIALIZE dispatched in any state whatsoever
unconditionally replaces the whole ledger state: the new transactions list
is exactly one new initialization transaction, the balance equals the
given amount, and isInitialized is true; prior history does not appear in
the result. -/
theorem initialize_replaces_state (env : TxEnv) (s : PettyCashState)
    (amount : ℚ) (date : String) :
    pettyCashReducer env s (.INITIALIZE amount date) =
      { balance := amount,
        transactions :=
          [{ id := env.newId, type := .initialization, amount := amount,
             date := date, purpose := none, recipient := none,
             timestamp := env.now }],
        isInitialized := true } := rfl

/-- Claim C9 (confirmed): when the stored snapshot fails to deserialize on
startup, the failure is caught (and only logged), no load is dispatched,
and the store remains at the empty initial state: balance 0, no
transactions, isInitialized false; the same holds when nothing is stored. -/
theorem mount_load_malformed_falls_back (env : TxEnv) (err : String) :
    mountLoad env (some (Except.error err)) = initialState ∧
    mountLoad env none = initialState ∧
    initialState.balance = 0 ∧
    initialState.transactions = [] ∧
    initialState.isInitialized = false :=
  ⟨rfl, rfl, rfl, rfl, rfl⟩

/-- Claim C10 (confirmed): handleReconcile never dispatches to the ledger
store, so the ledger state comes back unchanged for every input; on the
invalid-input guard path nothing at all changes, and on the main path the
only modification is to the separate reconciliation history, which
receives the newly built record at its head (the source keeps the most
recent 10 records). -/
theorem handleReconcile_frame (env : RecEnv) (s : PettyCashState)
    (history : List ReconciliationRecord) (actualCash : Option ℚ)
    (a : ℚ) (explanation : String) :
    (handleReconcile env s history actualCash explanation).1 = s ∧
    handleReconcile env s history none explanation = (s, history) ∧
    (handleReconcile env s history (some a) explanation).2 =
      ({ id := env.newId, date := env.today, theoreticalBalance := s.balance,
         actualCash := a, difference := a - s.balance,
         explanation :=
           if explanation.trim = "" then none else some explanation.trim,
         timestamp := env.now } :: history).take 10 := by
  refine ⟨?_, rfl, rfl⟩
  cases actualCash <;> rfl

/-- Claim C2 (confirmed): in every state reachable from the empty initial
state by initialize, disburse, replenish and loading of reachable
snapshots, the balance equals the fold of the transactions list in order
under the signed-amount rule. -/
theorem reachable_balance_eq_foldBalance (s : PettyCashState)
    (h : Reachable s) : s.balance = foldBalance s.transactions := by
  induction h with
  | empty => rfl
  | initializeStep env amount date s hs ih =>
      simp [pettyCashReducer, foldBalance, applyTx]
  | disburseStep env amount date purpose recipient s hs ih =>
      simp [pettyCashReducer, foldBalance, List.foldl_append, applyTx, ih]
  | replenishStep env amount date s hs ih =>
      simp [pettyCashReducer, foldBalance, List.foldl_append, applyTx, ih]
  | loadStep env s payload hs hp ihs ihp => exact ihp

/-- Witness for claim C2: the state reached by initialize(500) then
disburse(75.5) is reachable and satisfies the balance-fold invariant. -/
theorem reachable_balance_eq_foldBalance_witness :
    Reachable stateAfterDisburse ∧
    stateAfterDisburse.balance = foldBalance stateAfterDisburse.transactions :=
  have h : Reachable stateAfterDisburse :=
    Reachable.disburseStep envB 75.5 "2024-01-02" "Office Supplies" "Jane Doe"
      stateAfterInit
      (Reachable.initializeStep envA 500 "2024-01-01" initialState
        Reachable.empty)
  ⟨h, reachable_balance_eq_foldBalance stateAfterDisburse h⟩

/-- Claim C7 (confirmed): serializing any reachable state and reading it
back yields the same state, and dispatching LOAD_FROM_STORAGE with that
snapshot makes it the new state verbatim, whatever the current state. -/
theorem serialize_roundtrip (s : PettyCashState) (h : Reachable s)
    (env : TxEnv) (current : PettyCashState) :
    decodeState (encodeState s) = some s ∧
    pettyCashReducer env current (.LOAD_FROM_STORAGE s) = s :=
  ⟨decodeState_encodeState s, rfl⟩

/-- Witness for claim C7: the round trip holds at the concrete reachable
state produced by initialize(500) then disburse(75.5). -/
theorem serialize_roundtrip_witness :
    Reachable stateAfterDisburse ∧
    (decodeState (encodeState stateAfterDisburse) = some stateAfterDisburse ∧
     pettyCashReducer envA initialState (.LOAD_FROM_STORAGE stateAfterDisburse)
       = stateAfterDisburse) :=
  have h : Reachable stateAfterDisburse :=
    Reachable.disburseStep envB 75.5 "2024-01-02" "Office Supplies" "Jane Doe"
      stateAfterInit
      (Reachable.initializeStep envA 500 "2024-01-01" initialState
        Reachable.empty)
  ⟨h, serialize_roundtrip stateAfterDisburse h envA initialState⟩

/-- Claim C4 (counterexample): at systemBalance 0 and physicalBalance
0.01 the difference is exactly 0.01, which is positive and not strictly
below the 0.01 epsilon, so the claim requires Overage; the code classifies
Balanced, because its significance test is strict greater-than. -/
theorem classify_boundary_counterexample :
    classify 0 0.01 = Classification.Balanced ∧
    classifyClaimed 0 0.01 = Classification.Overage ∧
    difference 0 0.01 = 0.01 ∧
    0 < difference 0 0.01 ∧
    ¬ (|difference 0 0.01| < 0.01) := by
  have hd : difference 0 0.01 = (0.01 : ℚ) := by
    simp [difference]
  have habs : |difference 0 (0.01 : ℚ)| = (0.01 : ℚ) := by
    rw [hd, abs_of_nonneg (by norm_num : (0 : ℚ) ≤ 0.01)]
  refine ⟨?_, ?_, hd, by rw [hd]; norm_num, by rw [habs]; exact lt_irrefl _⟩
  · simp only [classify, isDifferenceSignificant, habs]
    norm_num
  · simp only [classifyClaimed, habs, hd]
    norm_num
    intro hlt
    rw [abs_of_nonneg (by norm_num : (0 : ℚ) ≤ 1 / 100)] at hlt
    exact absurd hlt (lt_irrefl _)

/-- Claim C4 (amended): the reconciliation computes
difference = physicalBalance - systemBalance and classifies it Balanced
exactly when the absolute difference is at most 0.01 (the significance
test of the source is strict greater-than, so the 0.01 boundary itself
counts as Balanced); when the absolute difference exceeds 0.01, positive
difference means Overage and negative difference means Shortage. -/
theorem classify_characterization (systemBalance physicalBalance : ℚ) :
    difference systemBalance physicalBalance = physicalBalance - systemBalance ∧
    (classify systemBalance physicalBalance = Classification.Balanced ↔
      |difference systemBalance physicalBalance| ≤ 0.01) ∧
    (classify systemBalance physicalBalance = Classification.Overage ↔
      0.01 < |difference systemBalance physicalBalance| ∧
        0 < difference systemBalance physicalBalance) ∧
    (classify systemBalance physicalBalance = Classification.Shortage ↔
      0.01 < |difference systemBalance physicalBalance| ∧
        difference systemBalance physicalBalance < 0) := by
  by_cases hsig : (0.01 : ℚ) < |difference systemBalance physicalBalance|
  · by_cases hpos : 0 < difference systemBalance physicalBalance
    · have hc : classify systemBalance physicalBalance = Classification.Overage := by
        simp [classify, isDifferenceSignificant, hsig, hpos]
      refine ⟨rfl, ?_, ?_, ?_⟩ <;> rw [hc]
      · exact iff_of_false (by simp) (not_le.mpr hsig)
      · exact iff_of_true rfl ⟨hsig, hpos⟩
      · exact iff_of_false (by simp)
          (fun hh => absurd hh.2 (not_lt.mpr hpos.le))
    · have hne : difference systemBalance physicalBalance ≠ 0 := by
        intro h0
        rw [h0] at hsig
        norm_num at hsig
      have hneg : difference systemBalance physicalBalance < 0 :=
        lt_of_le_of_ne (not_lt.mp hpos) hne
      have hc : classify systemBalance physicalBalance = Classification.Shortage := by
        simp [classify, isDifferenceSignificant, hsig, hpos]
      refine ⟨rfl, ?_, ?_, ?_⟩ <;> rw [hc]
      · exact iff_of_false (by simp) (not_le.mpr hsig)
      · exact iff_of_false (by simp) (fun hh => absurd hh.2 hpos)
      · exact iff_of_true rfl ⟨hsig, hneg⟩
  · have hc : classify systemBalance physicalBalance = Classification.Balanced := by
      simp [classify, isDifferenceSignificant, hsig]
    refine ⟨rfl, ?_, ?_, ?_⟩ <;> rw [hc]
    · exact iff_of_true rfl (not_lt.mp hsig)
    · exact iff_of_false (by simp) (fun hh => absurd hh.1 hsig)
    · exact iff_of_false (by simp) (fun hh => absurd hh.1 hsig)

/-- Dyadic impossibility: no binary64 value equals 0.02, because 0.02 is
1/50 and every representable double is an integer times a power of two,
while 50 has the odd prime factor 5. -/
theorem not_isFloat64_two_hundredths : ¬ isFloat64 (0.02 : ℚ) := by
  rintro ⟨m, e, hm, he1, he2, hx⟩
  have h002 : (0.02 : ℚ) = 1 / 50 := by norm_num
  rw [h002] at hx
  rcases e with k | k
  · rw [show (Int.ofNat k) = (k : ℤ) from rfl, zpow_natCast] at hx
    have hq : (1 : ℚ) = 50 * ((m : ℚ) * 2 ^ k) := by
      rw [← hx]
      norm_num
    have hz : (1 : ℤ) = 50 * (m * 2 ^ k) := by exact_mod_cast hq
    have hdvd : (50 : ℤ) ∣ 1 := ⟨m * 2 ^ k, hz⟩
    norm_num at hdvd
  · rw [zpow_negSucc] at hx
    have h2 : ((2 : ℚ) ^ (k + 1)) ≠ 0 := by positivity
    have hq : (2 : ℚ) ^ (k + 1) = 50 * (m : ℚ) := by
      field_simp at hx
      linarith
    have hz : (2 : ℤ) ^ (k + 1) = 50 * m := by exact_mod_cast hq
    have h5 : (5 : ℤ) ∣ 2 ^ (k + 1) := ⟨10 * m, by rw [hz]; ring⟩
    have hp : Prime (5 : ℤ) := by norm_num
    have h52 := hp.dvd_of_dvd_pow h5
    norm_num at h52

/-- Claim C5 (counterexample): under the binary64 arithmetic of the
program, reconciling 100.00 against 100.02 does not yield a difference
equal to 0.02. The literal 100.02 is stored as the double
7038281792649953 / 2 ^ 46 (certified nearest by the strict half-ulp
bound below), subtracting the exactly stored 100 yields the representable
value 1407374883553 / 2 ^ 46 exactly, and that computed difference
differs from 0.02 and from the double nearest 0.02; indeed no binary64
value equals 0.02 at all. -/
theorem reconcile_float_difference_counterexample :
    difference 100 double100_02 = doubleDifference ∧
    |(100.02 : ℚ) - double100_02| < 1 / 2 ^ 47 ∧
    isFloat64 doubleDifference ∧
    |(0.02 : ℚ) - double0_02| < 1 / 2 ^ 59 ∧
    doubleDifference ≠ 0.02 ∧
    doubleDifference ≠ double0_02 ∧
    ¬ isFloat64 (0.02 : ℚ) := by
  refine ⟨rfl, ?_, ?_, ?_, ?_, ?_, not_isFloat64_two_hundredths⟩
  · rw [abs_of_nonneg (by norm_num [double100_02] : (0 : ℚ) ≤ 100.02 - double100_02)]
    norm_num [double100_02]
  · refine ⟨1407374883553, -46, by norm_num, by norm_num, by norm_num, ?_⟩
    show doubleDifference = (1407374883553 : ℚ) * 2 ^ (-46 : ℤ)
    norm_num [doubleDifference, double100_02]
  · rw [abs_of_nonpos (by norm_num [double0_02] : (0.02 : ℚ) - double0_02 ≤ 0)]
    norm_num [double0_02]
  · norm_num [doubleDifference, double100_02]
  · norm_num [doubleDifference, double100_02, double0_02]

/-- Claim C5 (amended): reconcile(100.00, 100.004) classifies as Balanced
and reconcile(100.00, 100.02) classifies as Overage, both when the
amounts are read as exact decimals and at the binary64 values the program
actually stores (the stored differences also fall on the same sides of
the stored epsilon double); the difference for (100.00, 100.02) is
exactly 0.02 in exact decimal arithmetic, while the binary64 computation
yields 1407374883553 / 2 ^ 46, which is not exactly 0.02 but agrees with
0.02 to two decimal places, the precision the page displays. -/
theorem reconcile_boundary_amended :
    classify 100 100.004 = Classification.Balanced ∧
    classify 100 100.02 = Classification.Overage ∧
    difference 100 100.02 = 0.02 ∧
    classify 100 double100_004 = Classification.Balanced ∧
    classify 100 double100_02 = Classification.Overage ∧
    difference 100 double100_02 = doubleDifference ∧
    |difference 100 double100_004| < double0_01 ∧
    double0_01 < |doubleDifference| ∧
    0 < doubleDifference ∧
    |doubleDifference - 0.02| < 1 / 200 := by
  have hd1 : difference 100 (100.004 : ℚ) = (0.004 : ℚ) := by
    simp only [difference]
    norm_num
  have hd2 : difference 100 (100.02 : ℚ) = (0.02 : ℚ) := by
    simp only [difference]
    norm_num
  have hf1 : difference 100 double100_004 = 281474976711 / 2 ^ 46 := by
    simp only [difference]
    norm_num [double100_004]
  have hf2 : difference 100 double100_02 = 1407374883553 / 2 ^ 46 := by
    simp only [difference]
    norm_num [double100_02]
  have hdd : doubleDifference = 1407374883553 / 2 ^ 46 := by
    norm_num [doubleDifference, double100_02]
  refine ⟨?_, ?_, hd2, ?_, ?_, by rw [hf2, hdd], ?_, ?_, ?_, ?_⟩
  · simp only [classify, isDifferenceSignificant, hd1]
    rw [abs_of_nonneg (by norm_num : (0 : ℚ) ≤ 0.004)]
    norm_num
  · simp only [classify, isDifferenceSignificant, hd2]
    rw [abs_of_nonneg (by norm_num : (0 : ℚ) ≤ 0.02)]
    norm_num
  · simp only [classify, isDifferenceSignificant, hf1]
    rw [abs_of_nonneg (by norm_num : (0 : ℚ) ≤ 281474976711 / 2 ^ 46)]
    norm_num
  · simp only [classify, isDifferenceSignificant, hf2]
    rw [abs_of_nonneg (by norm_num : (0 : ℚ) ≤ 1407374883553 / 2 ^ 46)]
    norm_num
  · rw [hf1, abs_of_nonneg (by norm_num : (0 : ℚ) ≤ 281474976711 / 2 ^ 46)]
    norm_num [double0_01]
  · rw [hdd, abs_of_nonneg (by norm_num : (0 : ℚ) ≤ 1407374883553 / 2 ^ 46)]
    norm_num [double0_01]
  · rw [hdd]
    norm_num
  · rw [hdd,
      abs_of_nonpos (by norm_num : (1407374883553 / 2 ^ 46 : ℚ) - 0.02 ≤ 0)]
    norm_num

end PettyCash
